import Mathlib

/-!
Shallow embedding of the Github-Sponsor-Dashboard frontend.

The two components the claims are about are the Leaderboard page
(state: users, filters, sorters, pagination; operations: fetchUsers,
getLocations, getLeaderboardStats, handleTableChange, the `columns`
table definition) and the User detail page (state: historyInterval,
sponsorshipHistory; operation: the fetchHistory effect keyed on
[id, historyInterval]).

JavaScript values that can appear as fields of a leaderboard user row
are modelled by `JSValue`; a row (a JS object) is a list of
(key, value) pairs in insertion order, which is the order
`Object.entries` reports.
-/

namespace SponsorDashboard

/-- A JavaScript field value as it appears in a leaderboard user row:
`null`, a string, a number (modelled as a rational), or a boolean. -/
inductive JSValue where
  | null
  | str (s : String)
  | num (q : ℚ)
  | boolean (b : Bool)
  deriving DecidableEq

/-- A JS object in `Object.entries` order: keys with their values. -/
abbrev JSObject := List (String × JSValue)

/-- The per-field mapping applied in `fetchUsers`:
`value === null ? "None" : value === "Organization" ? "Org" : value`. -/
def mapFieldValue (v : JSValue) : JSValue :=
  if v = JSValue.null then JSValue.str "None"
  else if v = JSValue.str "Organization" then JSValue.str "Org"
  else v

/-- The per-user mapping in `fetchUsers`:
`Object.fromEntries(Object.entries(user).map(([key, value]) => [key, mapped]))`. -/
def mapUser (user : JSObject) : JSObject :=
  user.map (fun kv => (kv.1, mapFieldValue kv.2))

/-- Ant Design `SortOrder` (the non-null cases; `null` is `Option.none`
at use sites). -/
inductive SortOrder where
  | ascend
  | descend
  deriving DecidableEq

/-- The string Ant Design uses for a `SortOrder`, as appended to the
query string by `queryParams.append("sortOrder", order)`. -/
def sortOrderStr : SortOrder → String
  | SortOrder.ascend => "ascend"
  | SortOrder.descend => "descend"

/-- Ant Design `TablePaginationConfig` as used by the component:
`current` and `pageSize` are optional (hence the `|| 1` / `|| 10`
defaults in `fetchUsers`), `total` is kept as a number. -/
structure TablePaginationConfig where
  current : Option Nat
  pageSize : Option Nat
  total : Nat
  deriving DecidableEq

/-- The Leaderboard component state touched by the claims: the
displayed rows, the filter record, the sorter record and pagination. -/
structure LeaderboardState where
  users : List JSObject
  filters : List (String × Option (List String))
  sorters : List (String × Option SortOrder)
  pagination : TablePaginationConfig
  deriving DecidableEq

/-- The shape `fetchUsers` expects from a successful list-users
response: `{ users: [], total: number }`. -/
structure UsersResponse where
  users : List JSObject
  total : Nat
  deriving DecidableEq

/-- The state update `fetchUsers` performs on a successful response:
`setUsers(mappedUsers)` and
`setPagination(prev => ({ ...prev, total: data.total }))`. -/
def fetchUsersSuccess (st : LeaderboardState) (resp : UsersResponse) : LeaderboardState :=
  { st with
    users := resp.users.map mapUser
    pagination := { st.pagination with total := resp.total } }

/-- JavaScript `x || d` on an optional number: `undefined`/`null` and
`0` are falsy and yield the default. -/
def jsOrDefault (o : Option Nat) (d : Nat) : Nat :=
  match o with
  | none => d
  | some n => if n = 0 then d else n

/-- The query parameters one filter entry contributes in `fetchUsers`:
`if (value && Array.isArray(value) && value.length > 0)
   value.forEach(v => queryParams.append(key, v))`. -/
def filterContribution (kv : String × Option (List String)) : List (String × String) :=
  match kv with
  | (k, some vs) => if 0 < vs.length then vs.map (fun v => (k, v)) else []
  | (_, none) => []

/-- All filter query parameters, in `Object.entries` order. -/
def filterParams (filters : List (String × Option (List String))) : List (String × String) :=
  (filters.map filterContribution).flatten

/-- The sort query parameters in `fetchUsers`: for each entry with a
non-null order, `append("sortField", field); append("sortOrder", order)`. -/
def sorterParams (sorters : List (String × Option SortOrder)) : List (String × String) :=
  (sorters.map (fun kv =>
    match kv.2 with
    | some o => [("sortField", kv.1), ("sortOrder", sortOrderStr o)]
    | none => [])).flatten

/-- The full query-parameter list built by `fetchUsers`: `page` and
`per_page` (with `|| 1` / `|| 10` defaults) followed by the filter
parameters and then the sort parameters. -/
def fetchUsersQueryParams (pag : TablePaginationConfig)
    (filters : List (String × Option (List String)))
    (sorters : List (String × Option SortOrder)) : List (String × String) :=
  [("page", toString (jsOrDefault pag.current 1)),
   ("per_page", toString (jsOrDefault pag.pageSize 10))]
    ++ filterParams filters ++ sorterParams sorters

/-- One element of the sorter array Ant Design passes to `onChange`:
`field` may be absent (and the empty string is falsy in the
`if (s.field && s.order)` guard), `order` may be null. Array-valued
fields are already joined with a dot, as `s.field.join('.')` does. -/
structure SorterResult where
  field : Option String
  order : Option SortOrder
  deriving DecidableEq

/-- JS `acc[key] = order` on an insertion-ordered record: an existing
key keeps its position and gets the new value, a new key is appended. -/
def recordSet (acc : List (String × SortOrder)) (k : String) (v : SortOrder) :
    List (String × SortOrder) :=
  if acc.any (fun kv => kv.1 = k) then
    acc.map (fun kv => if kv.1 = k then (k, v) else kv)
  else acc ++ [(k, v)]

/-- The body of the `reduce` in `handleTableChange`:
`if (s.field && s.order) acc[key] = s.order; return acc`. -/
def sorterStep (acc : List (String × SortOrder)) (s : SorterResult) :
    List (String × SortOrder) :=
  match s.field, s.order with
  | some f, some o => if f = "" then acc else recordSet acc f o
  | _, _ => acc

/-- The `reduce` in `handleTableChange` building `formattedSorters`:
entries whose `field` and `order` are both truthy are written into the
accumulator record. -/
def formattedSorters (sortersArray : List SorterResult) : List (String × SortOrder) :=
  sortersArray.foldl sorterStep []

/-- The key/order pair an element of the sorter array contributes when
it passes the `if (s.field && s.order)` guard. -/
def sorterEntryKey (s : SorterResult) : Option (String × SortOrder) :=
  match s.field, s.order with
  | some f, some o => if f = "" then none else some (f, o)
  | _, _ => none

/-- `handleTableChange`: stores the formatted sorters and the new
filters, and resets `pagination.current` to 1 via
`setPagination(prev => ({ ...prev, current: 1 }))`. -/
def handleTableChange (st : LeaderboardState)
    (newFilters : List (String × Option (List String)))
    (newSorters : List SorterResult) : LeaderboardState :=
  { st with
    sorters := (formattedSorters newSorters).map (fun kv => (kv.1, some kv.2))
    filters := newFilters
    pagination := { st.pagination with current := some 1 } }

/-- A table filter option `{ text, value }`. -/
structure FilterOption where
  text : String
  value : String
  deriving DecidableEq

/-- A column's `sorter` prop: absent, `sorter: true`, or
`sorter: { multiple: n }`. -/
inductive ColumnSorterConfig where
  | off
  | on
  | multiple (priority : Nat)
  deriving DecidableEq

/-- The fields of an Ant Design column definition used by the
Leaderboard table (render callbacks are modelled separately). -/
structure Column where
  title : String
  dataIndex : String
  key : String
  width : Nat
  filters : Option (List FilterOption) := none
  filterSearch : Bool := false
  sorter : ColumnSorterConfig := ColumnSorterConfig.off
  sortDirections : List String := []
  deriving DecidableEq

/-- The Leaderboard `columns` array. Only the Location column depends
on component state (`filters: locationFilters`). -/
def columns (locationFilters : List FilterOption) : List Column :=
  [{ title := "Username", dataIndex := "username", key := "username", width := 115,
     sorter := ColumnSorterConfig.on, sortDirections := ["descend", "ascend"] },
   { title := "Name", dataIndex := "name", key := "name", width := 110,
     sorter := ColumnSorterConfig.on, sortDirections := ["descend", "ascend"] },
   { title := "Type", dataIndex := "type", key := "type", width := 70,
     filters := some [⟨"User", "User"⟩, ⟨"Organization", "Organization"⟩] },
   { title := "Gender", dataIndex := "gender", key := "gender", width := 85,
     filters := some [⟨"Male", "Male"⟩, ⟨"Female", "Female"⟩,
                      ⟨"Other", "Other"⟩, ⟨"Unknown", "Unknown"⟩] },
   { title := "Location", dataIndex := "location", key := "location", width := 110,
     filters := some locationFilters, filterSearch := true },
   { title := "Followers", dataIndex := "followers", key := "followers", width := 100,
     sorter := ColumnSorterConfig.multiple 2, sortDirections := ["descend", "ascend"] },
   { title := "Following", dataIndex := "following", key := "following", width := 100,
     sorter := ColumnSorterConfig.multiple 2, sortDirections := ["descend", "ascend"] },
   { title := "Repos", dataIndex := "public_repos", key := "repos", width := 75,
     sorter := ColumnSorterConfig.multiple 1, sortDirections := ["descend", "ascend"] },
   { title := "Sponsors", dataIndex := "total_sponsors", key := "sponsors", width := 100,
     sorter := ColumnSorterConfig.multiple 2, sortDirections := ["descend", "ascend"] },
   { title := "Sponsoring", dataIndex := "total_sponsoring", key := "sponsoring", width := 110,
     sorter := ColumnSorterConfig.multiple 2, sortDirections := ["descend", "ascend"] },
   { title := "Earnings (Estimate)", dataIndex := "estimated_earnings", key := "earnings",
     width := 165,
     sorter := ColumnSorterConfig.multiple 3, sortDirections := ["descend", "ascend"] }]

/-- The mapping in `getLocations`:
`data.map(location => ({ text: location, value: location }))`. -/
def getLocationsMap (data : List String) : List FilterOption :=
  data.map (fun location => { text := location, value := location })

/-- JavaScript `Math.round` on a (finite) number: round to nearest,
ties toward positive infinity, i.e. the floor of `x + 1/2`. -/
def jsRound (x : ℚ) : ℤ := ⌊x + 1/2⌋

/-- The dollar figure the Earnings column render displays:
`Math.round(record.estimated_earnings)`. -/
def earningsDisplayed (estimated_earnings : ℚ) : ℤ := jsRound estimated_earnings

/-- The `historyInterval` state of the User page, typed `'W' | 'M'`. -/
inductive Interval where
  | W
  | M
  deriving DecidableEq

/-- The string interpolated into the sponsorship-history URL. -/
def intervalStr : Interval → String
  | Interval.W => "W"
  | Interval.M => "M"

/-- The User page state the fetchHistory effect depends on: the route
id, the selected interval, and the dependency values `[id,
historyInterval]` recorded at the last run of the effect (`none`
before the first run). -/
structure UserPageState where
  id : String
  historyInterval : Interval
  lastHistoryDeps : Option (String × Interval)
  deriving DecidableEq

/-- The User page state on mount for a given route id:
`useState<'W' | 'M'>('W')`, and the effect has not run yet. -/
def initialUserPage (id : String) : UserPageState :=
  { id := id, historyInterval := Interval.W, lastHistoryDeps := none }

/-- The URL fetchHistory requests:
`/user/ID/sponsorship-history?interval=INTERVAL`. -/
def historyUrl (id : String) (interval : Interval) : String :=
  "/user/" ++ id ++ "/sponsorship-history?interval=" ++ intervalStr interval

/-- One render's evaluation of the `useEffect(..., [id, historyInterval])`
that wraps fetchHistory: if the dependency values equal those recorded
at the last run, the effect does not re-run and no request is issued;
otherwise the effect runs, records the new dependency values, and
issues the request unless `id` is falsy (`if (!id) return`). Returns
the next state and the requested URL, if any. -/
def historyEffectStep (st : UserPageState) : UserPageState × Option String :=
  if st.lastHistoryDeps = some (st.id, st.historyInterval) then (st, none)
  else
    ({ st with lastHistoryDeps := some (st.id, st.historyInterval) },
     if st.id = "" then none else some (historyUrl st.id st.historyInterval))

/-- The `top_sponsored` object of the brief-stats response. -/
structure TopSponsoredStat where
  username : String
  avatar_url : String
  total_sponsors : Nat
  deriving DecidableEq

/-- The `top_sponsoring` object of the brief-stats response. -/
structure TopSponsoringStat where
  username : String
  avatar_url : String
  total_sponsoring : Nat
  deriving DecidableEq

/-- The brief-stats payload (`LeaderboardStatsData` in the source). -/
structure LeaderboardStatsData where
  total_users : Nat
  total_sponsorships : Nat
  top_sponsored : TopSponsoredStat
  top_sponsoring : TopSponsoringStat
  deriving DecidableEq

/-- One run of `getLeaderboardStats`, given the outcome of its fetch
(`some d` for a successful response, `none` when the fetch or the
`!response.ok` check throws): on success it stores the data and
schedules the next run via `setTimeout(getLeaderboardStats, 15000)`;
on error it only logs. Returns the new `leaderboardData` state and
whether a next run was scheduled. -/
def getLeaderboardStatsStep (leaderboardData : Option LeaderboardStatsData)
    (outcome : Option LeaderboardStatsData) : Option LeaderboardStatsData × Bool :=
  match outcome with
  | some d => (some d, true)
  | none => (leaderboardData, false)

/-- The brief-stats refresh loop over a stream of fetch outcomes: the
first fetch is the one issued on mount; each scheduled run consumes
the next outcome. Returns the final `leaderboardData` and how many
fetches were performed. -/
def runBriefStats (leaderboardData : Option LeaderboardStatsData) :
    List (Option LeaderboardStatsData) → Option LeaderboardStatsData × Nat
  | [] => (leaderboardData, 0)
  | outcome :: rest =>
    let step := getLeaderboardStatsStep leaderboardData outcome
    if step.2 then
      let next := runBriefStats step.1 rest
      (next.1, next.2 + 1)
    else (step.1, 1)

/-- A concrete brief-stats payload used to exercise the refresh loop. -/
def sampleStats : LeaderboardStatsData :=
  { total_users := 1, total_sponsorships := 2,
    top_sponsored := { username := "a", avatar_url := "u", total_sponsors := 3 },
    top_sponsoring := { username := "b", avatar_url := "v", total_sponsoring := 4 } }

/-- Helper: the field mapping of `fetchUsers` never produces `null`. -/
theorem mapFieldValue_ne_null (v : JSValue) : mapFieldValue v ≠ JSValue.null := by
  unfold mapFieldValue
  split_ifs with h1 h2
  · exact fun h => JSValue.noConfusion h
  · exact fun h => JSValue.noConfusion h
  · exact h1

/-- Claim C1: on a successful list-users response `{ users, total }`,
`fetchUsers` stores exactly one displayed row per element of `users`
(the mapped row, in order), sets the pagination total to the
response's total, and leaves the current page and page size
unchanged. -/
theorem c1_fetch_users_success (st : LeaderboardState) (resp : UsersResponse) :
    (fetchUsersSuccess st resp).users = resp.users.map mapUser
    ∧ (fetchUsersSuccess st resp).users.length = resp.users.length
    ∧ (fetchUsersSuccess st resp).pagination.total = resp.total
    ∧ (fetchUsersSuccess st resp).pagination.current = st.pagination.current
    ∧ (fetchUsersSuccess st resp).pagination.pageSize = st.pagination.pageSize := by
  refine ⟨rfl, ?_, rfl, rfl, rfl⟩
  simp [fetchUsersSuccess]

/-- Claim C2 counterexample: at `estimated_earnings = 9/2` the Earnings
column displays `Math.round(9/2) = 5`, which exceeds the stored value,
so the displayed amount is not a lower bound of `estimated_earnings`. -/
theorem c2_round_exceeds_stored :
    earningsDisplayed (9/2) = 5 ∧ ¬ ((earningsDisplayed (9/2) : ℚ) ≤ 9/2) := by
  have h : earningsDisplayed (9/2) = 5 := by
    unfold earningsDisplayed jsRound
    norm_num
  refine ⟨h, ?_⟩
  rw [h]
  norm_num

/-- Claim C2, amended: the displayed dollar amount is
`estimated_earnings` rounded to the nearest integer (ties up), so it
lies within half a dollar of the stored value — at most
`estimated_earnings + 1/2`, and strictly above
`estimated_earnings - 1/2` — rather than never exceeding it. -/
theorem c2_round_within_half (x : ℚ) :
    (earningsDisplayed x : ℚ) ≤ x + 1/2 ∧ x - 1/2 < (earningsDisplayed x : ℚ) := by
  unfold earningsDisplayed jsRound
  refine ⟨Int.floor_le (x + 1/2), ?_⟩
  have h := Int.lt_floor_add_one (x + 1/2)
  linarith

/-- Claim C3: the Gender column offers exactly the filter options
Male, Female, Other, Unknown, in that order (each with text equal to
value), and it is the only gender column, so no other value can be
selected as a gender filter. -/
theorem c3_gender_filter_options (locationFilters : List FilterOption) :
    ((columns locationFilters).filter (fun c => c.key = "gender")).map (fun c => c.filters)
      = [some [⟨"Male", "Male"⟩, ⟨"Female", "Female"⟩,
               ⟨"Other", "Other"⟩, ⟨"Unknown", "Unknown"⟩]] := by
  rfl

/-- Claim C6: the list-users query is `page` and `per_page` (defaulting
to 1 and 10 when unset) followed by the filter parameters, where a
non-empty array filter contributes one repeated parameter per element
and a null or empty filter contributes nothing. -/
theorem c6_filter_and_page_params (pag : TablePaginationConfig)
    (filters : List (String × Option (List String)))
    (sorters : List (String × Option SortOrder))
    (k v : String) (vs : List String) :
    fetchUsersQueryParams pag filters sorters
      = ("page", toString (jsOrDefault pag.current 1))
        :: ("per_page", toString (jsOrDefault pag.pageSize 10))
        :: ((filters.map filterContribution).flatten ++ sorterParams sorters)
    ∧ jsOrDefault none 1 = 1
    ∧ jsOrDefault none 10 = 10
    ∧ filterContribution (k, none) = []
    ∧ filterContribution (k, some []) = []
    ∧ filterContribution (k, some (v :: vs)) = (v :: vs).map (fun w => (k, w)) := by
  refine ⟨?_, rfl, rfl, rfl, rfl, ?_⟩
  · simp [fetchUsersQueryParams, filterParams]
  · simp [filterContribution]

/-- Claim C7: from a distinct-locations response, `getLocations` builds
exactly one option per string, with both text and value equal to that
string, in response order. -/
theorem c7_location_options (data : List String) :
    (getLocationsMap data).map (fun o => o.text) = data
    ∧ (getLocationsMap data).map (fun o => o.value) = data
    ∧ (getLocationsMap data).length = data.length := by
  refine ⟨?_, ?_, ?_⟩ <;> simp [getLocationsMap, Function.comp_def]

/-- Claim C8: the row mapping in `fetchUsers` sends a null field value
to the string "None" and the string "Organization" to "Org", leaves
every other value unchanged, keeps the keys, and therefore a displayed
row never contains a null field. -/
theorem c8_null_and_org_mapping (user : JSObject) (v : JSValue)
    (h1 : v ≠ JSValue.null) (h2 : v ≠ JSValue.str "Organization") :
    mapUser user = user.map (fun kv => (kv.1, mapFieldValue kv.2))
    ∧ mapFieldValue JSValue.null = JSValue.str "None"
    ∧ mapFieldValue (JSValue.str "Organization") = JSValue.str "Org"
    ∧ mapFieldValue v = v
    ∧ (mapUser user).map Prod.fst = user.map Prod.fst
    ∧ JSValue.null ∉ (mapUser user).map Prod.snd := by
  refine ⟨rfl, rfl, rfl, ?_, ?_, ?_⟩
  · simp [mapFieldValue, h1, h2]
  · simp [mapUser]
  · simp only [mapUser, List.map_map, List.mem_map]
    rintro ⟨kv, _, hkv⟩
    exact mapFieldValue_ne_null kv.2 hkv

/-- Witness for C8 at a concrete row containing a null field, an
"Organization" field and a numeric field. -/
theorem c8_null_and_org_mapping_witness :
    mapUser [("name", JSValue.null)]
      = [(("name", JSValue.null))].map (fun kv => (kv.1, mapFieldValue kv.2))
    ∧ mapFieldValue JSValue.null = JSValue.str "None"
    ∧ mapFieldValue (JSValue.str "Organization") = JSValue.str "Org"
    ∧ mapFieldValue (JSValue.num 5) = JSValue.num 5
    ∧ (mapUser [("name", JSValue.null)]).map Prod.fst
        = [(("name", JSValue.null))].map Prod.fst
    ∧ JSValue.null ∉ (mapUser [("name", JSValue.null)]).map Prod.snd :=
  c8_null_and_org_mapping [("name", JSValue.null)] (JSValue.num 5) (by decide) (by decide)

/-- Claim C9: every change delivered through the table's `onChange`
(filter or sort controls) resets the current page to 1 and leaves the
page size unchanged. -/
theorem c9_change_resets_page (st : LeaderboardState)
    (newFilters : List (String × Option (List String)))
    (newSorters : List SorterResult) :
    (handleTableChange st newFilters newSorters).pagination.current = some 1
    ∧ (handleTableChange st newFilters newSorters).pagination.pageSize
        = st.pagination.pageSize :=
  ⟨rfl, rfl⟩

/-- Claim C4: the fetchHistory effect issues a request exactly when the
dependency pair (id, interval) differs from the one recorded at its
last run, the request URL always carries `interval=` the currently
selected interval, that interval's wire form is always "W" or "M", and
the initial state selects `W` with no recorded run. -/
theorem c4_history_request_invariants (st : UserPageState) (h : st.id ≠ "") :
    (historyEffectStep st).2
      = (if st.lastHistoryDeps = some (st.id, st.historyInterval) then none
         else some (historyUrl st.id st.historyInterval))
    ∧ (intervalStr st.historyInterval = "W" ∨ intervalStr st.historyInterval = "M")
    ∧ (initialUserPage st.id).historyInterval = Interval.W
    ∧ (initialUserPage st.id).lastHistoryDeps = none := by
  refine ⟨?_, ?_, rfl, rfl⟩
  · unfold historyEffectStep
    split_ifs with h1
    · rfl
    · simp [h]
  · cases st.historyInterval
    · exact Or.inl rfl
    · exact Or.inr rfl

/-- Witness for C4 at the mount state of a user page with id "42". -/
theorem c4_history_request_invariants_witness :
    (historyEffectStep
        { id := "42", historyInterval := Interval.W, lastHistoryDeps := none }).2
      = (if (none : Option (String × Interval)) = some ("42", Interval.W) then none
         else some (historyUrl "42" Interval.W))
    ∧ (intervalStr Interval.W = "W" ∨ intervalStr Interval.W = "M")
    ∧ (initialUserPage "42").historyInterval = Interval.W
    ∧ (initialUserPage "42").lastHistoryDeps = none :=
  c4_history_request_invariants
    { id := "42", historyInterval := Interval.W, lastHistoryDeps := none } (by decide)

/-- Helper: writing a key absent from the record appends it. -/
theorem recordSet_of_not_mem (acc : List (String × SortOrder)) (k : String) (v : SortOrder)
    (h : ∀ kv ∈ acc, kv.1 ≠ k) : recordSet acc k v = acc ++ [(k, v)] := by
  unfold recordSet
  rw [if_neg]
  simp only [List.any_eq_true, decide_eq_true_eq, not_exists, not_and]
  exact h

/-- Helper: `sorterStep` written through the guard result. -/
theorem sorterStep_eq (acc : List (String × SortOrder)) (s : SorterResult) :
    sorterStep acc s
      = match sorterEntryKey s with
        | some p => recordSet acc p.1 p.2
        | none => acc := by
  obtain ⟨f, o⟩ := s
  cases f with
  | none => cases o <;> rfl
  | some f =>
    cases o with
    | none => rfl
    | some o =>
      simp only [sorterStep, sorterEntryKey]
      split_ifs <;> rfl

/-- Helper: when the keys that pass the guard are distinct from each
other and from the accumulator's keys, the fold appends exactly the
guard-passing (field, order) pairs in order. -/
theorem foldl_sorterStep (ns : List SorterResult) (acc : List (String × SortOrder))
    (h : (acc.map Prod.fst ++ (ns.filterMap sorterEntryKey).map Prod.fst).Nodup) :
    ns.foldl sorterStep acc = acc ++ ns.filterMap sorterEntryKey := by
  induction ns generalizing acc with
  | nil => simp
  | cons s rest ih =>
    rw [List.foldl_cons, sorterStep_eq]
    cases hs : sorterEntryKey s with
    | none =>
      simp only [List.filterMap_cons, hs] at h ⊢
      exact ih acc h
    | some p =>
      obtain ⟨f, o⟩ := p
      simp only [List.filterMap_cons, hs, List.map_cons] at h ⊢
      have hf : f ∉ acc.map Prod.fst := by
        intro hmem
        exact (List.nodup_append.mp h).2.2 hmem
          (by simp)
      have hacc : ∀ kv ∈ acc, kv.1 ≠ f := by
        intro kv hkv heq
        exact hf (heq ▸ List.mem_map_of_mem Prod.fst hkv)
      rw [recordSet_of_not_mem acc f o hacc]
      have h2 : ((acc ++ [(f, o)]).map Prod.fst
          ++ ((rest.filterMap sorterEntryKey).map Prod.fst)).Nodup := by
        simpa using h
      rw [ih (acc ++ [(f, o)]) h2]
      simp

/-- Claim C5: after a table change whose reported sorter fields are
pairwise distinct, the sort query parameters of the next list-users
request are exactly one (sortField, sortOrder) pair per reported
column with a non-null order, in reported order; columns with a null
order contribute nothing. -/
theorem c5_sort_params_exact (st : LeaderboardState)
    (newFilters : List (String × Option (List String)))
    (newSorters : List SorterResult)
    (h : ((newSorters.filterMap sorterEntryKey).map Prod.fst).Nodup) :
    sorterParams (handleTableChange st newFilters newSorters).sorters
      = ((newSorters.filterMap sorterEntryKey).map
          (fun p => [("sortField", p.1), ("sortOrder", sortOrderStr p.2)])).flatten := by
  have hfs : formattedSorters newSorters = newSorters.filterMap sorterEntryKey := by
    have hgo := foldl_sorterStep newSorters [] (by simpa using h)
    simpa [formattedSorters] using hgo
  show sorterParams ((formattedSorters newSorters).map (fun kv => (kv.1, some kv.2))) = _
  rw [hfs]
  simp [sorterParams, List.map_map, Function.comp_def]

/-- Witness for C5: three reported sorters, the middle one with a null
order, produce exactly the two pairs for the non-null orders. -/
theorem c5_sort_params_exact_witness :
    sorterParams (handleTableChange
        { users := [], filters := [], sorters := [],
          pagination := { current := some 1, pageSize := some 10, total := 0 } }
        []
        [{ field := some "earnings", order := some SortOrder.descend },
         { field := some "username", order := none },
         { field := some "followers", order := some SortOrder.ascend }]).sorters
      = ((([{ field := some "earnings", order := some SortOrder.descend },
            { field := some "username", order := none },
            { field := some "followers", order := some SortOrder.ascend }]
              : List SorterResult).filterMap sorterEntryKey).map
          (fun p => [("sortField", p.1), ("sortOrder", sortOrderStr p.2)])).flatten :=
  c5_sort_params_exact
    { users := [], filters := [], sorters := [],
      pagination := { current := some 1, pageSize := some 10, total := 0 } }
    []
    [{ field := some "earnings", order := some SortOrder.descend },
     { field := some "username", order := none },
     { field := some "followers", order := some SortOrder.ascend }]
    (by decide)

/-- Claim C10: the brief-stats loop performs one fetch per leading
success plus the failing fetch, and stops there: after the first
failure no further fetch is scheduled, whatever outcomes would have
followed. -/
theorem c10_brief_stats_stop_on_error (d : Option LeaderboardStatsData)
    (pre post : List (Option LeaderboardStatsData))
    (h : ∀ r ∈ pre, r ≠ none) :
    (runBriefStats d (pre ++ none :: post)).2 = pre.length + 1 := by
  induction pre generalizing d with
  | nil => rfl
  | cons r rest ih =>
    cases r with
    | none => exact absurd rfl (h none (List.mem_cons_self _ _))
    | some x =>
      have hrest : ∀ r ∈ rest, r ≠ none := fun r hr => h r (List.mem_cons_of_mem _ hr)
      simp [runBriefStats, getLeaderboardStatsStep, ih (some x) hrest]

/-- Witness for C10: two successful fetches followed by a failure give
exactly three fetches, even though another outcome was available. -/
theorem c10_brief_stats_stop_on_error_witness :
    (runBriefStats none
        ([some sampleStats, some sampleStats] ++ none :: [some sampleStats])).2
      = [some sampleStats, some sampleStats].length + 1 :=
  c10_brief_stats_stop_on_error none [some sampleStats, some sampleStats]
    [some sampleStats] (by decide)

end SponsorDashboard
